import Mathlib

/-!
Verification of the face-registration / face-verification orchestration core
of the repository (face-api.js + Service Worker demo app).

Shallow embedding conventions, used throughout this file:

* A face descriptor is a `List ℚ` (the JS code holds a `Float32Array`; we
  model JS numbers by rationals, which is exact for every arithmetic
  operation the embedded code performs: addition, subtraction,
  multiplication, division and comparison).
* The JS value `Infinity` (returned by `euclideanDistance` on a length
  mismatch, and the initial value of minimum-distance searches) is modelled
  by `⊤` in `WithTop ℚ`.
* `Math.sqrt` is not rational, so every *comparison* the code makes between
  a Euclidean distance and another distance or threshold is represented in
  squared form: `sqrt s < t` (with `t ≥ 0`) holds iff `s < t * t`, and
  `sqrt s₁ < sqrt s₂` iff `s₁ < s₂`, so the squared representation preserves
  every branch the source code takes.  `distSq a b` is the squared distance
  with `⊤` for mismatched lengths.  The one place where the *value* of the
  distance matters (the `euclideanDistance` helper itself, claim C7) is
  embedded honestly over `ℝ` with `Real.sqrt`.
* DOM / drawing / logging / persistence side effects are outside the model;
  the functions below carry exactly the state those effects read or write
  insofar as the orchestration logic depends on it.
-/

namespace FaceApp

/-! ## Distance metric

Embeds `euclideanDistance` from `src/refactored/faceApi.js` (lines 24-32):

    function euclideanDistance(a, b) {
        if (!a || !b || a.length !== b.length) return Infinity;
        let sum = 0;
        for (let i = 0; i < a.length; i++) {
            const diff = a[i] - b[i];
            sum += diff * diff;
        }
        return Math.sqrt(sum);
    }
-/

/-- The loop body of `euclideanDistance`: the sum of squared componentwise
differences.  The loop runs over equal-length inputs only (the guard has
already returned `Infinity` otherwise), so `zipWith` is exact. -/
def sumSqDiff (a b : List ℚ) : ℚ :=
  (List.zipWith (fun x y => (x - y) * (x - y)) a b).sum

/-- Result of the JS `euclideanDistance`: either the sentinel `Infinity` or a
finite real number. -/
inductive EDist where
  | inf : EDist
  | val : ℝ → EDist

/-- `euclideanDistance` of `src/refactored/faceApi.js` lines 24-32.  `none`
models a missing (`null`/`undefined`) argument.  The function is total (Lean
functions cannot throw), mirroring the source's guarantee of never throwing. -/
noncomputable def euclideanDistance : Option (List ℚ) → Option (List ℚ) → EDist
  | none, _ => .inf
  | some _, none => .inf
  | some a, some b =>
    if a.length = b.length then .val (Real.sqrt ((sumSqDiff a b : ℚ) : ℝ)) else .inf

/-- Mathematical (spec-side) Euclidean distance of two equal-length rational
vectors, written independently of the code's loop: the square root of the sum,
over all indices, of the squared differences. -/
noncomputable def euclideanDistSpec (a b : List ℚ) : ℝ :=
  Real.sqrt (∑ i ∈ Finset.range a.length, ((a.getD i 0 : ℝ) - (b.getD i 0 : ℝ)) ^ 2)

lemma sumSqDiff_nonneg (a b : List ℚ) : 0 ≤ sumSqDiff a b := by
  induction a generalizing b with
  | nil => cases b <;> simp [sumSqDiff]
  | cons x xs ih =>
    cases b with
    | nil => simp [sumSqDiff]
    | cons y ys =>
      have h := ih ys
      have hsq : 0 ≤ (x - y) * (x - y) := mul_self_nonneg _
      simpa [sumSqDiff, List.sum_cons] using add_nonneg hsq h

lemma sumSqDiff_eq_finsetSum (a b : List ℚ) (h : a.length = b.length) :
    ((sumSqDiff a b : ℚ) : ℝ) =
      ∑ i ∈ Finset.range a.length, ((a.getD i 0 : ℝ) - (b.getD i 0 : ℝ)) ^ 2 := by
  induction a generalizing b with
  | nil =>
    cases b with
    | nil => simp [sumSqDiff]
    | cons y ys => simp at h
  | cons x xs ih =>
    cases b with
    | nil => simp at h
    | cons y ys =>
      have hlen : xs.length = ys.length := by simpa using h
      have hrec := ih ys hlen
      have hsplit :
          ∑ i ∈ Finset.range (xs.length + 1),
              (((x :: xs).getD i 0 : ℝ) - ((y :: ys).getD i 0 : ℝ)) ^ 2 =
            (∑ i ∈ Finset.range xs.length,
              ((xs.getD i 0 : ℝ) - (ys.getD i 0 : ℝ)) ^ 2) +
              (((x : ℚ) : ℝ) - ((y : ℚ) : ℝ)) ^ 2 := by
        rw [Finset.sum_range_succ']
        simp [List.getD]
      have hlen1 : (x :: xs).length = xs.length + 1 := rfl
      rw [hlen1, hsplit, ← hrec]
      simp [sumSqDiff, List.sum_cons]
      ring

/-- C7: for every pair of descriptors of unequal length, and whenever either
descriptor is absent, `euclideanDistance` returns the sentinel infinite value
(it is a total function, hence never throws and has no side effects); for
every pair of equal length it returns exactly the mathematical Euclidean
distance of the two vectors. -/
theorem euclideanDistance_characterisation :
    (∀ b, euclideanDistance none b = EDist.inf)
    ∧ (∀ a, euclideanDistance (some a) none = EDist.inf)
    ∧ (∀ a b : List ℚ, a.length ≠ b.length →
        euclideanDistance (some a) (some b) = EDist.inf)
    ∧ (∀ a b : List ℚ, a.length = b.length →
        euclideanDistance (some a) (some b) = EDist.val (euclideanDistSpec a b)) := by
  refine ⟨fun b => rfl, fun a => rfl, fun a b hne => ?_, fun a b heq => ?_⟩
  · simp [euclideanDistance, hne]
  · simp only [euclideanDistance, heq, if_pos]
    rw [euclideanDistSpec, sumSqDiff_eq_finsetSum a b heq]

/-! ## Squared-distance representation

`distSq a b` represents the value `euclideanDistance(a, b)` by its square,
with `⊤ : WithTop ℚ` standing for `Infinity`.  `distLt a b t` represents the
source-code comparison `euclideanDistance(a, b) < t`; the lemma
`distLt_iff_euclideanDistance_lt` below proves the representation faithful
for every positive threshold (all thresholds in the code are positive). -/

/-- Squared Euclidean distance with `⊤` for the `Infinity` sentinel. -/
def distSq (a b : List ℚ) : WithTop ℚ :=
  if a.length = b.length then ((sumSqDiff a b : ℚ) : WithTop ℚ) else ⊤

/-- The comparison `euclideanDistance(a, b) < t`, in squared form. -/
def distLt (a b : List ℚ) (t : ℚ) : Bool :=
  decide (distSq a b < ((t * t : ℚ) : WithTop ℚ))

/-- The value of `euclideanDistance` is below `t`. -/
def EDist.ltVal : EDist → ℝ → Prop
  | .inf, _ => False
  | .val r, t => r < t

/-- Faithfulness of the squared representation: for a positive threshold `t`,
`distLt a b t` is `true` exactly when the real-valued `euclideanDistance`
returns a finite value below `t` (and `Infinity` is never below `t`). -/
theorem distLt_iff_euclideanDistance_lt (a b : List ℚ) (t : ℚ) (ht : 0 < t) :
    distLt a b t = true ↔ (euclideanDistance (some a) (some b)).ltVal (t : ℝ) := by
  by_cases h : a.length = b.length
  · have htR : (0 : ℝ) < (t : ℝ) := by exact_mod_cast ht
    have hs : Real.sqrt ((sumSqDiff a b : ℚ) : ℝ) < (t : ℝ) ↔
        ((sumSqDiff a b : ℚ) : ℝ) < (t : ℝ) ^ 2 := Real.sqrt_lt' htR
    simp only [distLt, distSq, euclideanDistance, if_pos h, EDist.ltVal,
      decide_eq_true_eq]
    rw [hs]
    rw [show ((t : ℝ) ^ 2 = ((t * t : ℚ) : ℝ)) by push_cast; ring]
    constructor
    · intro hlt
      exact_mod_cast (WithTop.coe_lt_coe.mp hlt)
    · intro hlt
      exact_mod_cast hlt
  · simp [distLt, distSq, euclideanDistance, if_neg h, EDist.ltVal]

/-! ## Configuration constants

From `src/EnhancedApp/js/faceapi_warmup.js` (lines 237-247, 1098, 1268) and
`src/refactored/main.js` (`config.js` section, lines 400-416); the two
variants use the same numeric values. -/

/-- Minimum Euclidean distance to accept a new capture (`0.15`). -/
def registrationSimilarityThreshold : ℚ := 15 / 100

/-- Maximum attempts per descriptor slot (`20`). -/
def maxRegistrationAttempts : ℕ := 20

/-- Threshold for a duplicate across users (`0.3`). -/
def duplicateThreshold : ℚ := 3 / 10

/-- Maximum allowed distance from previous captures of the session (`0.3`). -/
def consistencyThreshold : ℚ := 3 / 10

/-- Number of captures required for registration (`20`). -/
def maxCaptures : ℕ := 20

/-- Verification match threshold `vle_distance_rate` /
`config.verification.distanceThreshold` (`0.3`). -/
def verificationDistanceThreshold : ℚ := 3 / 10

/-! ## Detections and capture quality

`Detection` carries the fields of one face-api.js detection that the
orchestration layer reads: the confidence score (`detection._score`), the
aligned bounding box (`alignedRect._box._width/_height`) and the face
descriptor. -/

/-- One detected face of a frame. -/
structure Detection where
  score : ℚ
  boxWidth : ℚ
  boxHeight : ℚ
  descriptor : List ℚ
deriving DecidableEq

/-- `isCaptureQualityHigh` of `src/EnhancedApp/js/faceapi_warmup.js` lines
598-607 (identical logic and constants in `src/refactored/faceApi.js` lines
49-58): the score must reach `0.5` and the box area at least `5%` of the
video frame area.  `videoWidth`/`videoHeight` are the dimensions the code
reads from the video element. -/
def isCaptureQualityHigh (d : Detection) (videoWidth videoHeight : ℚ) : Bool :=
  decide ((1 : ℚ) / 2 ≤ d.score)
    && decide (videoWidth * videoHeight * (5 / 100) ≤ d.boxWidth * d.boxHeight)

/-! ## Registration pipeline (EnhancedApp variant)

Embeds the registration decision pipeline of
`src/EnhancedApp/js/faceapi_warmup.js`: the per-frame gate of
`handleWorkerMessage` (lines 1358-1380) and the capture/acceptance logic of
`faceapi_register` (lines 1178-1266), including profile completion. -/

/-- `isConsistentWithCurrentUser` (faceapi_warmup.js lines 577-582): vacuously
true with no prior captures, otherwise every prior capture of the session
must be within `consistencyThreshold`. -/
def isConsistentWithCurrentUser
    (descriptor : List ℚ) (currentUserDescriptors : List (List ℚ)) : Bool :=
  if currentUserDescriptors.isEmpty then true
  else currentUserDescriptors.all (fun refDesc => distLt descriptor refDesc consistencyThreshold)

/-- `isDuplicateAcrossUsers` (faceapi_warmup.js lines 584-589): true when some
descriptor of the loaded registered-user pool is within `duplicateThreshold`. -/
def isDuplicateAcrossUsers
    (descriptor : List ℚ) (flatRegisteredDescriptors : List (List ℚ)) : Bool :=
  if flatRegisteredDescriptors.isEmpty then false
  else flatRegisteredDescriptors.any (fun refDesc => distLt descriptor refDesc duplicateThreshold)

/-- Outcome of the per-frame registration gate, one constructor per distinct
user-facing message of `handleWorkerMessage`'s registration branch. -/
inductive RegDecision where
  | noFace
  | multipleFaces
  | lowQuality
  | duplicateFace
  | inconsistent
  | accepted
deriving DecidableEq

/-- The per-frame registration gate of `handleWorkerMessage`
(faceapi_warmup.js lines 1355-1384, registration branch, timer checks aside):
short-circuits at the first failing check, each producing a distinct
user-facing message; `faceapi_register` runs only on `accepted`. -/
def handleWorkerMessageRegisterGate (dets : List Detection)
    (videoWidth videoHeight : ℚ) (currentUserDescriptors : List (List ℚ))
    (flatRegisteredDescriptors : List (List ℚ)) : RegDecision :=
  match dets with
  | [] => .noFace
  | d :: rest =>
    if rest ≠ [] then .multipleFaces
    else if ¬ isCaptureQualityHigh d videoWidth videoHeight then .lowQuality
    else if isDuplicateAcrossUsers d.descriptor flatRegisteredDescriptors then .duplicateFace
    else if ¬ isConsistentWithCurrentUser d.descriptor currentUserDescriptors then .inconsistent
    else .accepted

/-- A persisted user profile: `{ id, name, descriptors }` as saved by
`saveUser` (faceapi_warmup.js lines 1238-1247). -/
structure UserProfile where
  id : String
  name : String
  descriptors : List (List ℚ)
deriving DecidableEq

/-- `computeMeanDescriptor` (faceapi_warmup.js lines 609-622, identical in
src/refactored/faceApi.js lines 34-47): `null` for an empty list, otherwise
the elementwise arithmetic mean, with the first descriptor's length as the
result length (all descriptors of a session share that length). -/
def computeMeanDescriptor (descriptors : List (List ℚ)) : Option (List ℚ) :=
  match descriptors with
  | [] => none
  | d0 :: _ =>
    some ((List.range d0.length).map
      (fun i => (descriptors.map (fun d => d.getD i 0)).sum / descriptors.length))

/-- The mutable registration-session state of faceapi_warmup.js: the globals
`currentUserId`, `currentUserName`, `currentUserDescriptors`,
`registrationCompleted`, `currentRegistrationAttempt`,
`bestCandidateDescriptor` and `bestCandidateMinDist` (the latter kept in
squared form, see the file header). -/
structure RegSession where
  currentUserId : String
  currentUserName : String
  currentUserDescriptors : List (List ℚ)
  registrationCompleted : Bool
  currentRegistrationAttempt : ℕ
  bestCandidateDescriptor : Option (List ℚ)
  bestCandidateMinDistSq : WithTop ℚ
deriving DecidableEq

/-- `Math.min(...distances)` over the distances to the session's prior
captures (faceapi_warmup.js lines 1192-1194), in squared form; `⊤` is the
`Infinity` starting point. -/
def minDistSqTo (descriptor : List ℚ) (ds : List (List ℚ)) : WithTop ℚ :=
  (ds.map (fun d => distSq descriptor d)).foldr min ⊤

/-- `faceapi_register` (faceapi_warmup.js lines 1178-1266).  Returns the new
session state and, on completion, the `UserProfile` passed to `saveUser`:
the captured descriptors followed by their mean.  `idInput`/`nameInput` are
the values of the user-id and user-name input fields. -/
def faceapi_register (idInput nameInput : String) (descriptor : List ℚ)
    (s : RegSession) : RegSession × Option UserProfile :=
  if s.registrationCompleted then (s, none) else
  -- On first capture, read user info
  let s :=
    if s.currentUserDescriptors.isEmpty then
      { s with currentUserId := idInput, currentUserName := nameInput }
    else s
  -- Acceptance decision: the first descriptor is always accepted; later ones
  -- must be sufficiently distinct, with a best-candidate fallback once the
  -- per-slot attempt budget is exhausted.
  let step :
      Bool × List ℚ × RegSession :=
    if s.currentUserDescriptors.isEmpty then (true, descriptor, s)
    else
      let minDist := minDistSqTo descriptor s.currentUserDescriptors
      let s := { s with currentRegistrationAttempt := s.currentRegistrationAttempt + 1 }
      let s :=
        if s.bestCandidateMinDistSq < minDist then
          { s with bestCandidateMinDistSq := minDist,
                   bestCandidateDescriptor := some descriptor }
        else s
      if ((registrationSimilarityThreshold * registrationSimilarityThreshold : ℚ) :
            WithTop ℚ) < minDist then
        (true, descriptor, s)
      else if maxRegistrationAttempts ≤ s.currentRegistrationAttempt then
        (true, s.bestCandidateDescriptor.getD descriptor, s)
      else (false, descriptor, s)
  match step with
  | (false, _, s) => (s, none)
  | (true, descriptor, s) =>
    let captured := s.currentUserDescriptors ++ [descriptor]
    let s := { s with currentUserDescriptors := captured,
                      currentRegistrationAttempt := 0,
                      bestCandidateDescriptor := none,
                      bestCandidateMinDistSq := 0 }
    if maxCaptures ≤ captured.length then
      let s := { s with registrationCompleted := true }
      match computeMeanDescriptor captured with
      | some meanDescriptor =>
        (s, some { id := s.currentUserId, name := s.currentUserName,
                   descriptors := captured ++ [meanDescriptor] })
      | none => (s, none)  -- unreachable: `captured` is nonempty
    else (s, none)

/-- One registration frame of `handleWorkerMessage`: run the gate and, only on
`accepted`, `faceapi_register` on the single detection's descriptor. -/
def registerFrameStep (dets : List Detection) (videoWidth videoHeight : ℚ)
    (idInput nameInput : String) (flatRegisteredDescriptors : List (List ℚ))
    (s : RegSession) : RegSession × Option UserProfile :=
  if handleWorkerMessageRegisterGate dets videoWidth videoHeight
      s.currentUserDescriptors flatRegisteredDescriptors = .accepted then
    match dets with
    | d :: _ => faceapi_register idInput nameInput d.descriptor s
    | [] => (s, none)
  else (s, none)

lemma distSq_singleton (x y : ℚ) :
    distSq [x] [y] = (((x - y) * (x - y) : ℚ) : WithTop ℚ) := by
  simp [distSq, sumSqDiff]

lemma lt_minDistSqTo (c : ℚ) (descriptor : List ℚ) (ds : List (List ℚ))
    (h : ∀ d ∈ ds, ((c : ℚ) : WithTop ℚ) < distSq descriptor d) :
    ((c : ℚ) : WithTop ℚ) < minDistSqTo descriptor ds := by
  induction ds with
  | nil => exact WithTop.coe_lt_top c
  | cons d tl ih =>
    have hd := h d (List.mem_cons_self d tl)
    have htl := ih (fun e he => h e (List.mem_cons_of_mem d he))
    simpa [minDistSqTo] using lt_min hd htl

lemma isConsistentWithCurrentUser_eq_false_of_far
    (descriptor : List ℚ) (priors : List (List ℚ)) (hne : priors ≠ [])
    (hfar : ∀ p ∈ priors,
      ((consistencyThreshold * consistencyThreshold : ℚ) : WithTop ℚ) < distSq descriptor p) :
    isConsistentWithCurrentUser descriptor priors = false := by
  obtain ⟨p, hp⟩ := List.exists_mem_of_ne_nil priors hne
  unfold isConsistentWithCurrentUser
  rw [if_neg (by simpa [List.isEmpty_iff] using hne)]
  cases hall : priors.all (fun refDesc => distLt descriptor refDesc consistencyThreshold) with
  | false => rfl
  | true =>
    exfalso
    have h1 := List.all_eq_true.mp hall p hp
    have h2 : distLt descriptor p consistencyThreshold = false := by
      simp only [distLt, decide_eq_false_iff_not]
      exact lt_asymm (hfar p hp)
    rw [h2] at h1
    exact Bool.false_ne_true h1

/-- C4: with at least one prior capture in the session, a single detection of
high quality whose descriptor's distance to every (hence to the nearest)
prior capture exceeds the consistency threshold is not accepted, the frame
leaves the session state (in particular the captured-descriptor count)
unchanged, and — whenever the earlier duplicate check does not fire — the
rejection carries the distinct "inconsistent" user-facing reason. -/
theorem register_inconsistent_rejected
    (d : Detection) (videoWidth videoHeight : ℚ) (idInput nameInput : String)
    (flat : List (List ℚ)) (s : RegSession)
    (hq : isCaptureQualityHigh d videoWidth videoHeight = true)
    (hne : s.currentUserDescriptors ≠ [])
    (hfar : ∀ p ∈ s.currentUserDescriptors,
      ((consistencyThreshold * consistencyThreshold : ℚ) : WithTop ℚ) < distSq d.descriptor p) :
    handleWorkerMessageRegisterGate [d] videoWidth videoHeight
        s.currentUserDescriptors flat ≠ .accepted
    ∧ registerFrameStep [d] videoWidth videoHeight idInput nameInput flat s = (s, none)
    ∧ (isDuplicateAcrossUsers d.descriptor flat = false →
        handleWorkerMessageRegisterGate [d] videoWidth videoHeight
          s.currentUserDescriptors flat = .inconsistent) := by
  have hconsf := isConsistentWithCurrentUser_eq_false_of_far d.descriptor
    s.currentUserDescriptors hne hfar
  have hgate : handleWorkerMessageRegisterGate [d] videoWidth videoHeight
      s.currentUserDescriptors flat
      = (if isDuplicateAcrossUsers d.descriptor flat then RegDecision.duplicateFace
         else RegDecision.inconsistent) := by
    by_cases hdup : isDuplicateAcrossUsers d.descriptor flat = true
    · simp [handleWorkerMessageRegisterGate, hq, hdup]
    · have hdupf : isDuplicateAcrossUsers d.descriptor flat = false :=
        Bool.eq_false_iff.mpr hdup
      simp [handleWorkerMessageRegisterGate, hq, hdupf, hconsf]
  have hnacc : handleWorkerMessageRegisterGate [d] videoWidth videoHeight
      s.currentUserDescriptors flat ≠ .accepted := by
    rw [hgate]
    by_cases hdup : isDuplicateAcrossUsers d.descriptor flat = true <;> simp [hdup]
  refine ⟨hnacc, ?_, ?_⟩
  · rw [registerFrameStep, if_neg hnacc]
  · intro hdupf
    rw [hgate, hdupf]
    rfl

/-- Witness for C4: one high-quality detection at distance `10` from the only
prior capture (far beyond `0.3`) is rejected as inconsistent and the session
is unchanged. -/
theorem register_inconsistent_rejected_witness :
    isCaptureQualityHigh ⟨1, 100, 100, [0]⟩ 100 100 = true
    ∧ (RegSession.mk "" "" [[(10 : ℚ)]] false 0 none 0).currentUserDescriptors ≠ []
    ∧ (∀ p ∈ (RegSession.mk "" "" [[(10 : ℚ)]] false 0 none 0).currentUserDescriptors,
        ((consistencyThreshold * consistencyThreshold : ℚ) : WithTop ℚ) < distSq [0] p)
    ∧ (handleWorkerMessageRegisterGate [⟨1, 100, 100, [0]⟩] 100 100
          (RegSession.mk "" "" [[(10 : ℚ)]] false 0 none 0).currentUserDescriptors [] ≠ .accepted
       ∧ registerFrameStep [⟨1, 100, 100, [0]⟩] 100 100 "u" "n" []
           (RegSession.mk "" "" [[(10 : ℚ)]] false 0 none 0)
           = (RegSession.mk "" "" [[(10 : ℚ)]] false 0 none 0, none)
       ∧ (isDuplicateAcrossUsers [0] [] = false →
            handleWorkerMessageRegisterGate [⟨1, 100, 100, [0]⟩] 100 100
              (RegSession.mk "" "" [[(10 : ℚ)]] false 0 none 0).currentUserDescriptors []
              = .inconsistent)) := by
  have hq : isCaptureQualityHigh ⟨1, 100, 100, [0]⟩ 100 100 = true := by
    norm_num [isCaptureQualityHigh]
  have hne : (RegSession.mk "" "" [[(10 : ℚ)]] false 0 none 0).currentUserDescriptors ≠ [] := by
    simp
  have hfar : ∀ p ∈ (RegSession.mk "" "" [[(10 : ℚ)]] false 0 none 0).currentUserDescriptors,
      ((consistencyThreshold * consistencyThreshold : ℚ) : WithTop ℚ) < distSq [0] p := by
    intro p hp
    simp only [List.mem_singleton] at hp
    subst hp
    rw [distSq_singleton]
    rw [WithTop.coe_lt_coe]
    norm_num [consistencyThreshold]
  exact ⟨hq, hne, hfar,
    register_inconsistent_rejected ⟨1, 100, 100, [0]⟩ 100 100 "u" "n" []
      (RegSession.mk "" "" [[(10 : ℚ)]] false 0 none 0) hq hne hfar⟩

/-- C5: a high-quality single detection whose descriptor is within the
duplicate threshold of some descriptor of the loaded registered-user pool is
rejected with the distinct "already registered" reason, and the frame leaves
the session state unchanged — for every session state, in particular
regardless of the session's own captured descriptors. -/
theorem register_duplicate_rejected
    (d : Detection) (videoWidth videoHeight : ℚ) (idInput nameInput : String)
    (flat : List (List ℚ)) (s : RegSession) (refDesc : List ℚ)
    (hq : isCaptureQualityHigh d videoWidth videoHeight = true)
    (hmem : refDesc ∈ flat)
    (hnear : distSq d.descriptor refDesc
      < ((duplicateThreshold * duplicateThreshold : ℚ) : WithTop ℚ)) :
    handleWorkerMessageRegisterGate [d] videoWidth videoHeight
        s.currentUserDescriptors flat = .duplicateFace
    ∧ registerFrameStep [d] videoWidth videoHeight idInput nameInput flat s = (s, none) := by
  have hdup : isDuplicateAcrossUsers d.descriptor flat = true := by
    unfold isDuplicateAcrossUsers
    rw [if_neg (by simpa [List.isEmpty_iff] using List.ne_nil_of_mem hmem)]
    refine List.any_eq_true.mpr ⟨refDesc, hmem, ?_⟩
    simpa [distLt] using hnear
  have hgate : handleWorkerMessageRegisterGate [d] videoWidth videoHeight
      s.currentUserDescriptors flat = .duplicateFace := by
    simp [handleWorkerMessageRegisterGate, hq, hdup]
  refine ⟨hgate, ?_⟩
  rw [registerFrameStep, if_neg (by rw [hgate]; intro h; exact RegDecision.noConfusion h)]

/-- Witness for C5: the session already holds a capture, yet the incoming
descriptor is rejected as a cross-user duplicate because it is within `0.3`
of a pool descriptor. -/
theorem register_duplicate_rejected_witness :
    isCaptureQualityHigh ⟨1, 100, 100, [0]⟩ 100 100 = true
    ∧ [(1 / 10 : ℚ)] ∈ [[(1 / 10 : ℚ)]]
    ∧ distSq [0] [(1 / 10 : ℚ)]
        < ((duplicateThreshold * duplicateThreshold : ℚ) : WithTop ℚ)
    ∧ (handleWorkerMessageRegisterGate [⟨1, 100, 100, [0]⟩] 100 100
          (RegSession.mk "" "" [[(5 : ℚ)]] false 0 none 0).currentUserDescriptors
          [[(1 / 10 : ℚ)]] = .duplicateFace
       ∧ registerFrameStep [⟨1, 100, 100, [0]⟩] 100 100 "u" "n" [[(1 / 10 : ℚ)]]
           (RegSession.mk "" "" [[(5 : ℚ)]] false 0 none 0)
           = (RegSession.mk "" "" [[(5 : ℚ)]] false 0 none 0, none)) := by
  have hq : isCaptureQualityHigh ⟨1, 100, 100, [0]⟩ 100 100 = true := by
    norm_num [isCaptureQualityHigh]
  have hmem : [(1 / 10 : ℚ)] ∈ [[(1 / 10 : ℚ)]] := List.mem_singleton.mpr rfl
  have hnear : distSq [0] [(1 / 10 : ℚ)]
      < ((duplicateThreshold * duplicateThreshold : ℚ) : WithTop ℚ) := by
    rw [distSq_singleton, WithTop.coe_lt_coe]
    norm_num [duplicateThreshold]
  exact ⟨hq, hmem, hnear,
    register_duplicate_rejected ⟨1, 100, 100, [0]⟩ 100 100 "u" "n" [[(1 / 10 : ℚ)]]
      (RegSession.mk "" "" [[(5 : ℚ)]] false 0 none 0) [(1 / 10 : ℚ)] hq hmem hnear⟩

lemma computeMeanDescriptor_getD (ds : List (List ℚ)) (m : List ℚ)
    (hm : computeMeanDescriptor ds = some m) (i : ℕ) (hi : i < ds.headI.length) :
    m.getD i 0 * (ds.length : ℚ) = (ds.map (fun dd => dd.getD i 0)).sum := by
  cases ds with
  | nil => simp [computeMeanDescriptor] at hm
  | cons d0 tl =>
    simp only [computeMeanDescriptor, Option.some_inj] at hm
    subst hm
    have hi' : i < d0.length := hi
    rw [List.getD_eq_getElem?_getD, List.getElem?_map, List.getElem?_range hi']
    simp only [Option.map_some', Option.getD_some]
    rw [div_mul_cancel₀]
    exact_mod_cast (d0 :: tl).length_pos_of_ne_nil (List.cons_ne_nil d0 tl) |>.ne'

/-- C2: a registration session one capture short of the target that accepts
the incoming descriptor (its minimum distance to the session's prior captures
clears the similarity threshold) completes: the profile handed to `saveUser`
carries the session's id and name, its descriptor list is the `maxCaptures`
accepted captures followed by one extra element, that extra (last) element is
the `computeMeanDescriptor` of the captures, and elementwise it is their
arithmetic mean (its `i`-th entry times the capture count equals the sum of
the captures' `i`-th entries). -/
theorem register_completion_saves_mean_profile
    (idInput nameInput : String) (descriptor : List ℚ) (s : RegSession)
    (h0 : s.registrationCompleted = false)
    (h1 : s.currentUserDescriptors.length + 1 = maxCaptures)
    (h2 : ((registrationSimilarityThreshold * registrationSimilarityThreshold : ℚ) : WithTop ℚ)
        < minDistSqTo descriptor s.currentUserDescriptors) :
    ∃ u : UserProfile,
      (faceapi_register idInput nameInput descriptor s).2 = some u
      ∧ (faceapi_register idInput nameInput descriptor s).1.registrationCompleted = true
      ∧ u.id = s.currentUserId
      ∧ u.name = s.currentUserName
      ∧ u.descriptors.length = maxCaptures + 1
      ∧ u.descriptors.take maxCaptures = s.currentUserDescriptors ++ [descriptor]
      ∧ u.descriptors.getLast? = computeMeanDescriptor (s.currentUserDescriptors ++ [descriptor])
      ∧ ∀ m, u.descriptors.getLast? = some m →
          ∀ i < (s.currentUserDescriptors ++ [descriptor]).headI.length,
            m.getD i 0 * (maxCaptures : ℚ)
              = ((s.currentUserDescriptors ++ [descriptor]).map (fun dd => dd.getD i 0)).sum := by
  have hne : s.currentUserDescriptors ≠ [] := by
    intro hnil
    rw [hnil] at h1
    simp [maxCaptures] at h1
  have hempty : s.currentUserDescriptors.isEmpty = false := by
    simpa [List.isEmpty_iff] using hne
  have hcapslen : (s.currentUserDescriptors ++ [descriptor]).length = maxCaptures := by
    simpa [List.length_append] using h1
  have hlen : maxCaptures ≤ (s.currentUserDescriptors ++ [descriptor]).length :=
    le_of_eq hcapslen.symm
  obtain ⟨m, hm⟩ : ∃ m, computeMeanDescriptor (s.currentUserDescriptors ++ [descriptor]) = some m := by
    obtain ⟨d0, tl, hcons⟩ := List.exists_cons_of_ne_nil hne
    rw [hcons]
    exact ⟨_, rfl⟩
  have hstep : faceapi_register idInput nameInput descriptor s
      = ({ currentUserId := s.currentUserId, currentUserName := s.currentUserName,
           currentUserDescriptors := s.currentUserDescriptors ++ [descriptor],
           registrationCompleted := true, currentRegistrationAttempt := 0,
           bestCandidateDescriptor := none, bestCandidateMinDistSq := 0 },
         some { id := s.currentUserId, name := s.currentUserName,
                descriptors := (s.currentUserDescriptors ++ [descriptor]) ++ [m] }) := by
    unfold faceapi_register
    rw [if_neg (by simp [h0])]
    simp only [hempty, Bool.false_eq_true, if_false]
    rw [if_pos h2]
    split_ifs with hbc
    · simp only [hm]
      rw [if_pos hlen]
    · simp only [hm]
      rw [if_pos hlen]
  refine ⟨_, by rw [hstep], by rw [hstep], rfl, rfl, ?_, ?_, ?_, ?_⟩
  · rw [List.length_append, hcapslen]
    rfl
  · rw [← hcapslen]
    exact List.take_left _ _
  · simp [List.getLast?_concat, hm]
  · intro mm hmm i hi
    simp only [List.getLast?_concat, Option.some_inj] at hmm
    subst hmm
    have h3 := computeMeanDescriptor_getD (s.currentUserDescriptors ++ [descriptor]) m hm i hi
    rw [hcapslen] at h3
    exact h3

/-- A concrete registration session holding 19 mutually distinct captures
(dimension-1 descriptors `[0], [1], ..., [18]`), one short of the target. -/
def c2Session : RegSession :=
  { currentUserId := "U1", currentUserName := "Alice",
    currentUserDescriptors := (List.range 19).map (fun k : ℕ => [(k : ℚ)]),
    registrationCompleted := false, currentRegistrationAttempt := 0,
    bestCandidateDescriptor := none, bestCandidateMinDistSq := 0 }

/-- Witness for C2: accepting the 20th capture `[100]` into `c2Session`
completes registration and saves a 21-descriptor profile ending in the mean. -/
theorem register_completion_saves_mean_profile_witness :
    c2Session.registrationCompleted = false
    ∧ c2Session.currentUserDescriptors.length + 1 = maxCaptures
    ∧ ((registrationSimilarityThreshold * registrationSimilarityThreshold : ℚ) : WithTop ℚ)
        < minDistSqTo [(100 : ℚ)] c2Session.currentUserDescriptors
    ∧ ∃ u : UserProfile,
        (faceapi_register "U1" "Alice" [(100 : ℚ)] c2Session).2 = some u
        ∧ (faceapi_register "U1" "Alice" [(100 : ℚ)] c2Session).1.registrationCompleted = true
        ∧ u.id = c2Session.currentUserId
        ∧ u.name = c2Session.currentUserName
        ∧ u.descriptors.length = maxCaptures + 1
        ∧ u.descriptors.take maxCaptures = c2Session.currentUserDescriptors ++ [[(100 : ℚ)]]
        ∧ u.descriptors.getLast?
            = computeMeanDescriptor (c2Session.currentUserDescriptors ++ [[(100 : ℚ)]])
        ∧ ∀ m, u.descriptors.getLast? = some m →
            ∀ i < (c2Session.currentUserDescriptors ++ [[(100 : ℚ)]]).headI.length,
              m.getD i 0 * (maxCaptures : ℚ)
                = ((c2Session.currentUserDescriptors ++ [[(100 : ℚ)]]).map
                    (fun dd => dd.getD i 0)).sum := by
  have h1 : c2Session.currentUserDescriptors.length + 1 = maxCaptures := by
    have hc : c2Session.currentUserDescriptors = (List.range 19).map (fun k : ℕ => [(k : ℚ)]) := rfl
    rw [hc, List.length_map, List.length_range]
    rfl
  have h2 : ((registrationSimilarityThreshold * registrationSimilarityThreshold : ℚ) : WithTop ℚ)
      < minDistSqTo [(100 : ℚ)] c2Session.currentUserDescriptors := by
    apply lt_minDistSqTo
    intro d hd
    simp only [c2Session, List.mem_map, List.mem_range] at hd
    obtain ⟨k, hk, rfl⟩ := hd
    rw [distSq_singleton, WithTop.coe_lt_coe]
    have hk18 : k ≤ 18 := by omega
    have hkq : (k : ℚ) ≤ 18 := by exact_mod_cast hk18
    have h82 : (82 : ℚ) ≤ 100 - (k : ℚ) := by linarith
    unfold registrationSimilarityThreshold
    nlinarith [h82, mul_le_mul h82 h82 (by linarith) (by linarith)]
  exact ⟨rfl, h1, h2,
    register_completion_saves_mean_profile "U1" "Alice" [(100 : ℚ)] c2Session rfl h1 h2⟩

/-! ## Verification pipeline (refactored variant)

Embeds `faceApiVerify` of `src/refactored/faceApi.js` (lines 256-302), the
state resets of `restartVerification` (lines 417-427) and the candidate
loading of `handleJsonFileSelect` in `src/refactored/main.js` (lines 53-117).
The verification state is `state.verification` of `src/refactored/state.js`. -/

/-- One entry of `flatRegisteredUserMeta`: `{ id, name }`. -/
structure UserMeta where
  id : String
  name : String
deriving DecidableEq

/-- `state.verification` of `src/refactored/state.js` (lines 43-53), the
fields `faceApiVerify` and its callers read or write.  `verifiedUserIds` is
the JS `Set` of ids. -/
structure VerificationState where
  flatRegisteredDescriptors : List (List ℚ)
  flatRegisteredUserMeta : List UserMeta
  verifiedUserIds : Finset String
  verifiedCount : ℕ
  totalFaces : ℕ
  isCompleted : Bool
deriving DecidableEq

/-- The minimum-distance loop of `faceApiVerify` (faceApi.js lines 259-270):
index `i` walks the candidate list tracking `matchedUserIndex` (`none` for
`-1`) and `minDistance` (`⊤` for the initial `Infinity`); a strict improvement
updates both. -/
def findBestMatchAux (descriptor : List ℚ) :
    ℕ → List (List ℚ) → Option ℕ → WithTop ℚ → Option ℕ × WithTop ℚ
  | _, [], matchedUserIndex, minDistance => (matchedUserIndex, minDistance)
  | i, refDesc :: rest, matchedUserIndex, minDistance =>
    if distSq descriptor refDesc < minDistance then
      findBestMatchAux descriptor (i + 1) rest (some i) (distSq descriptor refDesc)
    else
      findBestMatchAux descriptor (i + 1) rest matchedUserIndex minDistance

/-- The closest match among all registered descriptors and its (squared)
distance, starting from `matchedUserIndex = -1`, `minDistance = Infinity`. -/
def findBestMatch (descriptor : List ℚ) (refs : List (List ℚ)) :
    Option ℕ × WithTop ℚ :=
  findBestMatchAux descriptor 0 refs none ⊤

/-- The id of the matched candidate: `flatRegisteredUserMeta[matchedUserIndex].id`
(an out-of-range index yields the empty — falsy — id, as the `uid &&` guard of
the source treats it). -/
def matchedUid (s : VerificationState) (matchedUserIndex : ℕ) : String :=
  (s.flatRegisteredUserMeta.getD matchedUserIndex ⟨"", ""⟩).id

/-- `faceApiVerify` (faceApi.js lines 256-302).  An already-completed session
ignores the frame; otherwise the closest candidate is taken, and only when it
is within the distance threshold and carries a non-empty id not yet verified
does the state change: the id is added to the set and the counter incremented
together, and the session completes (camera stop and overlay aside) when the
counter reaches `totalFaces`.  The candidate pool (`flatRegisteredDescriptors`
/ `flatRegisteredUserMeta`) is never written. -/
def faceApiVerify (descriptor : List ℚ) (s : VerificationState) : VerificationState :=
  if s.isCompleted then s
  else
    match findBestMatch descriptor s.flatRegisteredDescriptors with
    | (none, _) => s
    | (some matchedUserIndex, minDistance) =>
      if minDistance
          < ((verificationDistanceThreshold * verificationDistanceThreshold : ℚ) :
              WithTop ℚ) then
        if matchedUid s matchedUserIndex ≠ ""
            ∧ matchedUid s matchedUserIndex ∉ s.verifiedUserIds then
          if s.totalFaces ≤ s.verifiedCount + 1 then
            { s with verifiedUserIds := insert (matchedUid s matchedUserIndex) s.verifiedUserIds,
                     verifiedCount := s.verifiedCount + 1,
                     isCompleted := true }
          else
            { s with verifiedUserIds := insert (matchedUid s matchedUserIndex) s.verifiedUserIds,
                     verifiedCount := s.verifiedCount + 1 }
        else s
      else s

/-- `restartVerification` (faceApi.js lines 417-427): clears the verified-id
set and counter and the completion flag; the loaded pool is untouched. -/
def restartVerification (s : VerificationState) : VerificationState :=
  { s with verifiedUserIds := ∅, verifiedCount := 0, isCompleted := false }

/-- The success path of `handleJsonFileSelect` (main.js lines 53-117): resets
the pool, the verified-id set and the counter, then pushes every descriptor of
every loaded user paired with that user's `{id, name}`, and sets `totalFaces`
to the number of loaded users.  (`isCompleted` is not touched by the source.) -/
def handleJsonFileSelect (users : List UserProfile) (s : VerificationState) :
    VerificationState :=
  { s with
    flatRegisteredDescriptors := users.flatMap (fun u => u.descriptors),
    flatRegisteredUserMeta :=
      users.flatMap (fun u => u.descriptors.map (fun _ => ⟨u.id, u.name⟩)),
    verifiedUserIds := ∅,
    verifiedCount := 0,
    totalFaces := users.length }

/-- C1 (amended): `faceApiVerify` never modifies the candidate pool — the
per-face minimum-distance loop of every subsequent frame ranges over the same
full loaded lists — and the verified-id set only grows; repeat protection
comes from that set, not from removing entries. -/
theorem verify_pool_unchanged_verified_monotone
    (descriptor : List ℚ) (s : VerificationState) :
    (faceApiVerify descriptor s).flatRegisteredDescriptors = s.flatRegisteredDescriptors
    ∧ (faceApiVerify descriptor s).flatRegisteredUserMeta = s.flatRegisteredUserMeta
    ∧ s.verifiedUserIds ⊆ (faceApiVerify descriptor s).verifiedUserIds := by
  unfold faceApiVerify
  split
  · exact ⟨rfl, rfl, subset_rfl⟩
  · split
    · exact ⟨rfl, rfl, subset_rfl⟩
    · split_ifs with h1 h2 h3
      · exact ⟨rfl, rfl, Finset.subset_insert _ _⟩
      · exact ⟨rfl, rfl, Finset.subset_insert _ _⟩
      · exact ⟨rfl, rfl, subset_rfl⟩
      · exact ⟨rfl, rfl, subset_rfl⟩

/-- A concrete verification state: two loaded identities `A` (descriptor
`[0]`) and `B` (descriptor `[10]`), none verified yet. -/
def c1State : VerificationState :=
  { flatRegisteredDescriptors := [[0], [10]],
    flatRegisteredUserMeta := [⟨"A", "Alice"⟩, ⟨"B", "Bob"⟩],
    verifiedUserIds := ∅, verifiedCount := 0, totalFaces := 2,
    isCompleted := false }

/-- Counterexample to C1 as stated: the frame `[0]` marks identity `A`
verified, yet no candidate entry is removed — the pool still equals the full
loaded list, `A`'s descriptor `[0]` is still in it, and the next frame's
minimum-distance computation still selects `A`'s entry (index `0`, distance
`0`) rather than ranging over a strictly smaller set. -/
theorem verify_pool_not_shrunk_counterexample :
    (faceApiVerify [0] c1State).verifiedUserIds = {"A"}
    ∧ (faceApiVerify [0] c1State).verifiedCount = 1
    ∧ (faceApiVerify [0] c1State).isCompleted = false
    ∧ (faceApiVerify [0] c1State).flatRegisteredDescriptors
        = c1State.flatRegisteredDescriptors
    ∧ [0] ∈ (faceApiVerify [0] c1State).flatRegisteredDescriptors
    ∧ findBestMatch [0] (faceApiVerify [0] c1State).flatRegisteredDescriptors
        = (some 0, ((0 : ℚ) : WithTop ℚ)) := by
  have hfb : findBestMatch [(0 : ℚ)] [[(0 : ℚ)], [10]]
      = (some 0, ((0 : ℚ) : WithTop ℚ)) := by
    norm_num [findBestMatch, findBestMatchAux, distSq_singleton, WithTop.coe_lt_top,
      WithTop.coe_lt_coe]
  have hstep : faceApiVerify [0] c1State
      = { flatRegisteredDescriptors := [[0], [10]],
          flatRegisteredUserMeta := [⟨"A", "Alice"⟩, ⟨"B", "Bob"⟩],
          verifiedUserIds := {"A"}, verifiedCount := 1, totalFaces := 2,
          isCompleted := false } := by
    unfold faceApiVerify
    rw [if_neg (by intro h; exact Bool.false_ne_true h)]
    rw [show c1State.flatRegisteredDescriptors = [[(0 : ℚ)], [10]] from rfl, hfb]
    norm_num [verificationDistanceThreshold, WithTop.coe_lt_coe, List.getD]
    rw [if_pos (show ¬matchedUid c1State 0 = "" ∧ matchedUid c1State 0 ∉ c1State.verifiedUserIds
      from by decide)]
    rw [if_neg (show ¬(c1State.totalFaces ≤ c1State.verifiedCount + 1) from by decide)]
    rfl
  refine ⟨by rw [hstep], by rw [hstep], by rw [hstep], by rw [hstep]; rfl, ?_, ?_⟩
  · rw [hstep]
    simp
  · rw [show (faceApiVerify [0] c1State).flatRegisteredDescriptors
        = [[(0 : ℚ)], [10]] from by rw [hstep]]
    exact hfb

lemma verify_noop_of_completed (descriptor : List ℚ) (s : VerificationState)
    (hc : s.isCompleted = true) : faceApiVerify descriptor s = s := by
  unfold faceApiVerify
  rw [if_pos hc]

/-- Case analysis of one `faceApiVerify` step on a live session: either the
state is untouched, or exactly one new id is verified — the id of the closest
candidate, within threshold, non-empty and not yet verified — with the set
and the counter updated together and completion exactly when the incremented
counter reaches `totalFaces`. -/
lemma verify_step_cases (descriptor : List ℚ) (s : VerificationState)
    (hnc : s.isCompleted = false) :
    faceApiVerify descriptor s = s
    ∨ ∃ i dd, findBestMatch descriptor s.flatRegisteredDescriptors = (some i, dd)
        ∧ dd < ((verificationDistanceThreshold * verificationDistanceThreshold : ℚ) :
            WithTop ℚ)
        ∧ matchedUid s i ≠ ""
        ∧ matchedUid s i ∉ s.verifiedUserIds
        ∧ faceApiVerify descriptor s
            = (if s.totalFaces ≤ s.verifiedCount + 1 then
                { s with verifiedUserIds := insert (matchedUid s i) s.verifiedUserIds,
                         verifiedCount := s.verifiedCount + 1, isCompleted := true }
               else
                { s with verifiedUserIds := insert (matchedUid s i) s.verifiedUserIds,
                         verifiedCount := s.verifiedCount + 1 }) := by
  unfold faceApiVerify
  rw [if_neg (by rw [hnc]; exact Bool.false_ne_true)]
  split
  · exact Or.inl rfl
  · rename_i i dd hfb
    by_cases hthr : dd < ((verificationDistanceThreshold * verificationDistanceThreshold : ℚ) :
        WithTop ℚ)
    · rw [if_pos hthr]
      by_cases hnew : matchedUid s i ≠ "" ∧ matchedUid s i ∉ s.verifiedUserIds
      · rw [if_pos hnew]
        exact Or.inr ⟨i, dd, hfb, hthr, hnew.1, hnew.2, rfl⟩
      · rw [if_neg hnew]
        exact Or.inl rfl
    · rw [if_neg hthr]
      exact Or.inl rfl

/-- C6: on a live session satisfying the reachable-state invariant
`verifiedCount < totalFaces`, a verification frame completes the session
exactly when the verified count reaches the total candidate-identity count
(never before — if the session stays live the count is still below the
total), and a frame whose best match is an already-verified id leaves the
whole state unchanged (the repeat match is a no-op that does not increment
the counter). -/
theorem verify_completion_exact (descriptor : List ℚ) (s : VerificationState)
    (hInv : s.verifiedCount < s.totalFaces) (hnc : s.isCompleted = false) :
    ((faceApiVerify descriptor s).isCompleted = true ↔
      (faceApiVerify descriptor s).verifiedCount = s.totalFaces)
    ∧ ((faceApiVerify descriptor s).isCompleted = false →
        (faceApiVerify descriptor s).verifiedCount < s.totalFaces)
    ∧ (∀ i d, findBestMatch descriptor s.flatRegisteredDescriptors = (some i, d) →
        d < ((verificationDistanceThreshold * verificationDistanceThreshold : ℚ) :
            WithTop ℚ) →
        matchedUid s i ∈ s.verifiedUserIds →
        faceApiVerify descriptor s = s) := by
  rcases verify_step_cases descriptor s hnc with hr | ⟨i, dd, hfb, hthr, hne, hnot, heq⟩
  · rw [hr]
    refine ⟨?_, fun _ => hInv, fun j d hfb2 hd2 hmem2 => rfl⟩
    constructor
    · intro h
      rw [hnc] at h
      exact absurd h Bool.false_ne_true
    · intro h
      exact absurd h (Nat.ne_of_lt hInv)
  · have hfalse : ∀ j d, findBestMatch descriptor s.flatRegisteredDescriptors = (some j, d) →
        d < ((verificationDistanceThreshold * verificationDistanceThreshold : ℚ) :
            WithTop ℚ) →
        matchedUid s j ∈ s.verifiedUserIds → False := by
      intro j d hfb2 hd2 hmem2
      have hij := hfb.symm.trans hfb2
      injection hij with h1 h2
      injection h1 with hji
      subst hji
      exact hnot hmem2
    by_cases hdone : s.totalFaces ≤ s.verifiedCount + 1
    · rw [heq, if_pos hdone]
      have htot : s.totalFaces = s.verifiedCount + 1 := le_antisymm hdone hInv
      refine ⟨by simp [htot], ?_, fun j d h1 h2 h3 => (hfalse j d h1 h2 h3).elim⟩
      intro h
      simp at h
    · rw [heq, if_neg hdone]
      have hlt : s.verifiedCount + 1 < s.totalFaces := Nat.lt_of_not_le hdone
      refine ⟨?_, fun _ => hlt, fun j d h1 h2 h3 => (hfalse j d h1 h2 h3).elim⟩
      constructor
      · intro h
        simp only [hnc] at h
        exact absurd h Bool.false_ne_true
      · intro h
        simp only [] at h
        exact absurd h (Nat.ne_of_lt hlt)

/-- A concrete verification state: a single loaded identity `A` with
descriptor `[0]`, not yet verified. -/
def c6State : VerificationState :=
  { flatRegisteredDescriptors := [[0]], flatRegisteredUserMeta := [⟨"A", "Alice"⟩],
    verifiedUserIds := ∅, verifiedCount := 0, totalFaces := 1, isCompleted := false }

/-- Witness for C6 at a live single-candidate session. -/
theorem verify_completion_exact_witness :
    c6State.verifiedCount < c6State.totalFaces
    ∧ c6State.isCompleted = false
    ∧ (((faceApiVerify [0] c6State).isCompleted = true ↔
          (faceApiVerify [0] c6State).verifiedCount = c6State.totalFaces)
       ∧ ((faceApiVerify [0] c6State).isCompleted = false →
           (faceApiVerify [0] c6State).verifiedCount < c6State.totalFaces)
       ∧ (∀ i d, findBestMatch [0] c6State.flatRegisteredDescriptors = (some i, d) →
           d < ((verificationDistanceThreshold * verificationDistanceThreshold : ℚ) :
               WithTop ℚ) →
           matchedUid c6State i ∈ c6State.verifiedUserIds →
           faceApiVerify [0] c6State = c6State)) :=
  ⟨by decide, rfl, verify_completion_exact [0] c6State (by decide) rfl⟩

/-- C10: the verified counter always equals the cardinality of the
verified-id set: the property is preserved by every `faceApiVerify` frame
(both are updated together, exactly once per newly matched identity), and it
is established by `restartVerification` and by loading a new candidate file,
which reset both together. -/
theorem verified_count_matches_set_card (descriptor : List ℚ)
    (s : VerificationState) (users : List UserProfile) :
    (s.verifiedCount = s.verifiedUserIds.card →
      (faceApiVerify descriptor s).verifiedCount
        = (faceApiVerify descriptor s).verifiedUserIds.card)
    ∧ (restartVerification s).verifiedCount
        = (restartVerification s).verifiedUserIds.card
    ∧ (handleJsonFileSelect users s).verifiedCount
        = (handleJsonFileSelect users s).verifiedUserIds.card := by
  refine ⟨?_, by simp [restartVerification], by simp [handleJsonFileSelect]⟩
  intro hcard
  cases hc : s.isCompleted with
  | true =>
    rw [verify_noop_of_completed descriptor s hc]
    exact hcard
  | false =>
    rcases verify_step_cases descriptor s hc with hr | ⟨i, dd, hfb, hthr, hne, hnot, heq⟩
    · rw [hr]
      exact hcard
    · rw [heq]
      split_ifs with hdone <;>
        simp [Finset.card_insert_of_not_mem hnot, hcard]

/-! ## Frame pump (single-flight discipline, C3)

Embeds the scheduling skeleton of the `step` callback of
`video_face_detection` (src/refactored/faceApi.js lines 307-342; the
EnhancedApp variant, faceapi_warmup.js lines 839-903, has the same skeleton)
together with the resume tail of `handleDetectionResult` (lines 246-249).  A
run interleaves two events: a scheduler tick (one `requestAnimationFrame`
callback) and a detection reply.  `inFlight` is the ghost count of
DETECT_FACES requests dispatched and not yet answered. -/

inductive PumpEvent where
  | tick
  | reply
deriving DecidableEq

/-- The pump's state: whether the video is producing frames
(`¬(video.paused ‖ video.ended)`), the `state.isDetectingFrame` flag, whether
the capture canvas has valid dimensions, and the ghost in-flight count. -/
structure PumpState where
  videoPlaying : Bool
  isDetectingFrame : Bool
  canvasReady : Bool
  inFlight : ℕ
deriving DecidableEq

/-- One event.  A tick reschedules without capturing when the video is not
playing, a detection is already in flight, or the canvas has no valid
dimensions; otherwise it sets the in-flight flag *before* dispatching exactly
one DETECT_FACES request and stops scheduling.  A reply — the tail of
`handleDetectionResult` — answers one request, clears the flag, and hands the
next tick to the scheduler. -/
def pumpTick (s : PumpState) : PumpState :=
  if !s.videoPlaying then s
  else if s.isDetectingFrame then s
  else if !s.canvasReady then s
  else { s with isDetectingFrame := true, inFlight := s.inFlight + 1 }

/-- The reply tail of `handleDetectionResult`: one request answered, the
in-flight flag cleared. -/
def pumpReply (s : PumpState) : PumpState :=
  { s with isDetectingFrame := false, inFlight := s.inFlight - 1 }

def pumpStep (s : PumpState) : PumpEvent → PumpState
  | .tick => pumpTick s
  | .reply => pumpReply s

/-- A run of the loop: fold the events over the state. -/
def pumpRun (s : PumpState) (events : List PumpEvent) : PumpState :=
  events.foldl pumpStep s

/-- The initial state of the loop: no detection in flight
(`state.isDetectingFrame = false`, src/refactored/state.js line 16). -/
def pumpInit (videoPlaying canvasReady : Bool) : PumpState :=
  { videoPlaying := videoPlaying, isDetectingFrame := false,
    canvasReady := canvasReady, inFlight := 0 }

lemma pumpTick_invariant (s : PumpState)
    (h : s.inFlight = (if s.isDetectingFrame then 1 else 0)) :
    (pumpTick s).inFlight = (if (pumpTick s).isDetectingFrame then 1 else 0) := by
  unfold pumpTick
  by_cases h1 : (!s.videoPlaying) = true
  · rw [if_pos h1]
    exact h
  · rw [if_neg h1]
    by_cases h2 : s.isDetectingFrame = true
    · rw [if_pos h2]
      exact h
    · rw [if_neg h2]
      by_cases h3 : (!s.canvasReady) = true
      · rw [if_pos h3]
        exact h
      · rw [if_neg h3]
        have h0 : s.inFlight = 0 := by rwa [if_neg h2] at h
        simp [h0]

lemma pumpReply_invariant (s : PumpState)
    (h : s.inFlight = (if s.isDetectingFrame then 1 else 0)) :
    (pumpReply s).inFlight = (if (pumpReply s).isDetectingFrame then 1 else 0) := by
  cases hd : s.isDetectingFrame <;> rw [hd] at h <;> simp [pumpReply, h]

lemma pumpStep_invariant (s : PumpState) (e : PumpEvent)
    (h : s.inFlight = (if s.isDetectingFrame then 1 else 0)) :
    (pumpStep s e).inFlight = (if (pumpStep s e).isDetectingFrame then 1 else 0) := by
  cases e with
  | tick => exact pumpTick_invariant s h
  | reply => exact pumpReply_invariant s h

lemma pumpRun_invariant (events : List PumpEvent) :
    ∀ s : PumpState, s.inFlight = (if s.isDetectingFrame then 1 else 0) →
      (pumpRun s events).inFlight
        = (if (pumpRun s events).isDetectingFrame then 1 else 0) := by
  induction events with
  | nil => intro s h; exact h
  | cons e rest ih =>
    intro s h
    exact ih (pumpStep s e) (pumpStep_invariant s e h)

lemma pumpStep_tick_noop (s : PumpState) (h : s.isDetectingFrame = true) :
    pumpStep s .tick = s := by
  show pumpTick s = s
  unfold pumpTick
  rw [if_pos h]
  split_ifs <;> rfl

/-- C3: along every run of the frame loop from the initial state — hence for
every interleaving of scheduler ticks with the worker's replies, i.e. for any
tick rate relative to the inference latency — at most one DETECT_FACES
request is in flight; while one is awaiting its reply a tick dispatches
nothing (the state, in-flight count included, is unchanged); and dispatching
can resume only once a reply has cleared the in-flight flag. -/
theorem pump_single_flight (videoPlaying canvasReady : Bool)
    (events : List PumpEvent) :
    (pumpRun (pumpInit videoPlaying canvasReady) events).inFlight ≤ 1
    ∧ ((pumpRun (pumpInit videoPlaying canvasReady) events).isDetectingFrame = true →
        pumpStep (pumpRun (pumpInit videoPlaying canvasReady) events) .tick
          = pumpRun (pumpInit videoPlaying canvasReady) events)
    ∧ (pumpStep (pumpRun (pumpInit videoPlaying canvasReady)
          events) PumpEvent.reply).isDetectingFrame = false := by
  have hinv := pumpRun_invariant events (pumpInit videoPlaying canvasReady) rfl
  refine ⟨?_, fun h => pumpStep_tick_noop _ h, rfl⟩
  rw [hinv]
  split_ifs <;> omega

/-! ## Refactored app: camera stop and reply routing (C8)

Embeds `stopCamera` (src/refactored/camera.js lines 61-72), the refactored
`faceApiRegister` (src/refactored/faceApi.js lines 144-186) and the routing
of `handleDetectionResult` (lines 192-250) over the application state of
src/refactored/state.js. -/

inductive FaceAction where
  | register
  | verify
deriving DecidableEq

/-- `state.registration` of src/refactored/state.js, the fields the
refactored `faceApiRegister` reads or writes. -/
structure RRegistration where
  currentUserId : String
  currentUserName : String
  currentUserDescriptors : List (List ℚ)
  isCompleted : Bool
deriving DecidableEq

/-- Steps 2-4 of the refactored `faceApiRegister` (faceApi.js lines 157-186):
reject a capture within `similarityThreshold` of a prior session capture,
otherwise append it and complete at `maxCaptures`.  (This refactored variant
has no cross-user duplicate check and no consistency check.) -/
def faceApiRegisterCapture (descriptor : List ℚ) (r : RRegistration) : RRegistration :=
  if r.currentUserDescriptors.any
      (fun d => distLt descriptor d registrationSimilarityThreshold) then r
  else if maxCaptures ≤ (r.currentUserDescriptors ++ [descriptor]).length then
    { r with currentUserDescriptors := r.currentUserDescriptors ++ [descriptor],
             isCompleted := true }
  else
    { r with currentUserDescriptors := r.currentUserDescriptors ++ [descriptor] }

/-- The refactored `faceApiRegister` (faceApi.js lines 144-186), state part:
a completed session ignores the capture; on a first capture the user info is
read from the input fields and an empty id or name aborts (with the info
already stored, as in the source); otherwise the capture decision runs. -/
def faceApiRegister (userIdInput userNameInput : String) (descriptor : List ℚ)
    (r : RRegistration) : RRegistration :=
  if r.isCompleted then r
  else if r.currentUserDescriptors.isEmpty then
    if userIdInput = "" ∨ userNameInput = "" then
      { r with currentUserId := userIdInput, currentUserName := userNameInput }
    else
      faceApiRegisterCapture descriptor
        { r with currentUserId := userIdInput, currentUserName := userNameInput }
  else faceApiRegisterCapture descriptor r

/-- The application-level state the cancellation/reply-routing code touches:
the frame-pump flags, the stored tick callback (`videoDetectionStep`, as a
presence flag), the mode flag `faceapiAction`, the user-info inputs and the
two pipeline states. -/
structure AppState where
  isDetectingFrame : Bool
  hasVideoDetectionStep : Bool
  videoPlaying : Bool
  faceapiAction : Option FaceAction
  userIdInput : String
  userNameInput : String
  registration : RRegistration
  verification : VerificationState
deriving DecidableEq

/-- `stopCamera` (camera.js lines 61-72): stops the stream and pauses the
video, then synchronously clears the in-flight flag and drops the stored tick
callback.  It touches neither `faceapiAction` nor the pipeline states. -/
def stopCamera (s : AppState) : AppState :=
  { s with videoPlaying := false, isDetectingFrame := false,
           hasVideoDetectionStep := false }

/-- The registration call of `handleDetectionResult` at app level: the source
calls `stopCamera` inside `faceApiRegister` exactly when the session
completes in this call. -/
def faceApiRegisterApp (descriptor : List ℚ) (s : AppState) : AppState :=
  if (faceApiRegister s.userIdInput s.userNameInput descriptor s.registration).isCompleted
      && !s.registration.isCompleted then
    stopCamera
      { s with
        registration :=
          faceApiRegister s.userIdInput s.userNameInput descriptor s.registration }
  else
    { s with
      registration :=
        faceApiRegister s.userIdInput s.userNameInput descriptor s.registration }

/-- The verification call of `handleDetectionResult` at app level: the source
calls `stopCamera` inside `faceApiVerify` exactly when the session completes
in this call. -/
def faceApiVerifyApp (descriptor : List ℚ) (s : AppState) : AppState :=
  if (faceApiVerify descriptor s.verification).isCompleted
      && !s.verification.isCompleted then
    stopCamera { s with verification := faceApiVerify descriptor s.verification }
  else
    { s with verification := faceApiVerify descriptor s.verification }

/-- The registration flow of `handleDetectionResult` (faceApi.js lines
199-228): with action `register`, exactly one detection of high quality is
handed to `faceApiRegister`; zero, several, or a low-quality one only produce
messages. -/
def routeRegister (dets : List Detection) (videoWidth videoHeight : ℚ)
    (s : AppState) : AppState :=
  if s.faceapiAction = some FaceAction.register then
    match dets with
    | [d] =>
      if isCaptureQualityHigh d videoWidth videoHeight then
        faceApiRegisterApp d.descriptor s
      else s
    | _ => s
  else s

/-- The verification flow of `handleDetectionResult` (faceApi.js lines
230-244): with action `verify`, the first detection, when of high quality, is
handed to `faceApiVerify`. -/
def routeVerify (dets : List Detection) (videoWidth videoHeight : ℚ)
    (s : AppState) : AppState :=
  if s.faceapiAction = some FaceAction.verify then
    match dets with
    | d :: _ =>
      if isCaptureQualityHigh d videoWidth videoHeight then
        faceApiVerifyApp d.descriptor s
      else s
    | [] => s
  else s

/-- `handleDetectionResult` (faceApi.js lines 192-250): the registration
flow, then the verification flow — with no check that the camera is still
running — then the in-flight flag is cleared; the next tick is scheduled only
through the stored callback, when one is present. -/
def handleDetectionResult (dets : List Detection) (videoWidth videoHeight : ℚ)
    (s : AppState) : AppState :=
  { routeVerify dets videoWidth videoHeight
      (routeRegister dets videoWidth videoHeight s) with
    isDetectingFrame := false }

lemma faceApiRegisterApp_hasStep_false (descriptor : List ℚ) (s : AppState)
    (h : s.hasVideoDetectionStep = false) :
    (faceApiRegisterApp descriptor s).hasVideoDetectionStep = false := by
  unfold faceApiRegisterApp stopCamera
  split_ifs <;> simp [h]

lemma faceApiVerifyApp_hasStep_false (descriptor : List ℚ) (s : AppState)
    (h : s.hasVideoDetectionStep = false) :
    (faceApiVerifyApp descriptor s).hasVideoDetectionStep = false := by
  unfold faceApiVerifyApp stopCamera
  split_ifs <;> simp [h]

lemma routeRegister_hasStep_false (dets : List Detection)
    (videoWidth videoHeight : ℚ) (s : AppState)
    (h : s.hasVideoDetectionStep = false) :
    (routeRegister dets videoWidth videoHeight s).hasVideoDetectionStep = false := by
  unfold routeRegister
  repeat' split
  all_goals first
    | exact h
    | exact faceApiRegisterApp_hasStep_false _ _ h

lemma routeVerify_hasStep_false (dets : List Detection)
    (videoWidth videoHeight : ℚ) (s : AppState)
    (h : s.hasVideoDetectionStep = false) :
    (routeVerify dets videoWidth videoHeight s).hasVideoDetectionStep = false := by
  unfold routeVerify
  repeat' split
  all_goals first
    | exact h
    | exact faceApiVerifyApp_hasStep_false _ _ h

lemma routeRegister_noop_of_no_action (dets : List Detection)
    (videoWidth videoHeight : ℚ) (s : AppState) (h : s.faceapiAction = none) :
    routeRegister dets videoWidth videoHeight s = s := by
  unfold routeRegister
  rw [if_neg (by rw [h]; exact fun hc => Option.noConfusion hc)]

lemma routeVerify_noop_of_no_action (dets : List Detection)
    (videoWidth videoHeight : ℚ) (s : AppState) (h : s.faceapiAction = none) :
    routeVerify dets videoWidth videoHeight s = s := by
  unfold routeVerify
  rw [if_neg (by rw [h]; exact fun hc => Option.noConfusion hc)]

/-- C8 (amended): stopping the camera synchronously clears the in-flight flag
and drops the pending tick callback, so the detection loop cannot resume — a
reply arriving afterwards still finds no stored tick.  But the reply itself is
*routed*, not discarded: only when the mode flag has been cleared (as the
cancellation entry points of the EnhancedApp variant do) does a post-stop
reply leave both pipeline states untouched. -/
theorem stopCamera_clears_flag_and_tick (s : AppState) (dets : List Detection)
    (videoWidth videoHeight : ℚ) :
    (stopCamera s).isDetectingFrame = false
    ∧ (stopCamera s).hasVideoDetectionStep = false
    ∧ (stopCamera s).videoPlaying = false
    ∧ (handleDetectionResult dets videoWidth videoHeight
        (stopCamera s)).hasVideoDetectionStep = false
    ∧ (s.faceapiAction = none →
        (handleDetectionResult dets videoWidth videoHeight (stopCamera s)).registration
          = s.registration
        ∧ (handleDetectionResult dets videoWidth videoHeight (stopCamera s)).verification
          = s.verification) := by
  refine ⟨rfl, rfl, rfl, ?_, ?_⟩
  · unfold handleDetectionResult
    have h1 := routeRegister_hasStep_false dets videoWidth videoHeight (stopCamera s) rfl
    have h2 := routeVerify_hasStep_false dets videoWidth videoHeight
      (routeRegister dets videoWidth videoHeight (stopCamera s)) h1
    simpa using h2
  · intro h
    have hs : (stopCamera s).faceapiAction = none := h
    unfold handleDetectionResult
    rw [routeRegister_noop_of_no_action dets videoWidth videoHeight (stopCamera s) hs,
      routeVerify_noop_of_no_action dets videoWidth videoHeight (stopCamera s) hs]
    exact ⟨rfl, rfl⟩

/-- A live registration session of the refactored app: one capture `[[0]]`
taken, action still `register`. -/
def c8State : AppState :=
  { isDetectingFrame := true, hasVideoDetectionStep := true, videoPlaying := true,
    faceapiAction := some FaceAction.register,
    userIdInput := "U1", userNameInput := "Alice",
    registration := { currentUserId := "U1", currentUserName := "Alice",
                      currentUserDescriptors := [[0]], isCompleted := false },
    verification := { flatRegisteredDescriptors := [], flatRegisteredUserMeta := [],
                      verifiedUserIds := ∅, verifiedCount := 0, totalFaces := 0,
                      isCompleted := false } }

/-- Counterexample to C8 as stated: after `stopCamera`, a stale
DETECTION_RESULT reply carrying a high-quality detection is *not* discarded —
it is routed to `faceApiRegister`, which appends the descriptor to the
registration pipeline state (`[[0]]` grows to `[[0], [10]]`). -/
theorem stale_reply_applied_counterexample :
    (stopCamera c8State).isDetectingFrame = false
    ∧ (stopCamera c8State).hasVideoDetectionStep = false
    ∧ (stopCamera c8State).registration.currentUserDescriptors = [[0]]
    ∧ (handleDetectionResult [⟨1, 100, 100, [10]⟩] 100 100
        (stopCamera c8State)).registration.currentUserDescriptors = [[0], [10]] := by
  refine ⟨rfl, rfl, rfl, ?_⟩
  have hq : isCaptureQualityHigh ⟨1, 100, 100, [10]⟩ 100 100 = true := by
    norm_num [isCaptureQualityHigh]
  have hnd : ([[(0 : ℚ)]].any
      (fun d => distLt [(10 : ℚ)] d registrationSimilarityThreshold)) = false := by
    simp only [List.any_cons, List.any_nil, Bool.or_false]
    rw [distLt, decide_eq_false_iff_not, distSq_singleton]
    rw [WithTop.coe_lt_coe]
    norm_num [registrationSimilarityThreshold]
  have hreg : faceApiRegister "U1" "Alice" [(10 : ℚ)]
      (RRegistration.mk "U1" "Alice" [[(0 : ℚ)]] false)
      = RRegistration.mk "U1" "Alice" [[(0 : ℚ)], [10]] false := by
    unfold faceApiRegister faceApiRegisterCapture
    rw [if_neg (by exact Bool.false_ne_true)]
    rw [if_neg (by simp)]
    rw [hnd]
    simp only [Bool.false_eq_true, if_false]
    rw [if_neg (by simp [maxCaptures])]
    rfl
  have happ : faceApiRegisterApp [(10 : ℚ)] (stopCamera c8State)
      = { stopCamera c8State with
          registration := RRegistration.mk "U1" "Alice" [[(0 : ℚ)], [10]] false } := by
    unfold faceApiRegisterApp
    rw [show (stopCamera c8State).userIdInput = "U1" from rfl,
      show (stopCamera c8State).userNameInput = "Alice" from rfl,
      show (stopCamera c8State).registration
        = RRegistration.mk "U1" "Alice" [[(0 : ℚ)]] false from rfl,
      hreg]
    rw [if_neg (by simp)]
    rfl
  have hroute : routeRegister [⟨1, 100, 100, [10]⟩] 100 100 (stopCamera c8State)
      = { stopCamera c8State with
          registration := RRegistration.mk "U1" "Alice" [[(0 : ℚ)], [10]] false } := by
    unfold routeRegister
    rw [if_pos (show (stopCamera c8State).faceapiAction = some FaceAction.register from rfl)]
    show (if isCaptureQualityHigh ⟨1, 100, 100, [10]⟩ 100 100 = true then
        faceApiRegisterApp [(10 : ℚ)] (stopCamera c8State) else stopCamera c8State) = _
    rw [if_pos hq]
    exact happ
  have hv : routeVerify [⟨1, 100, 100, [10]⟩] 100 100
      (routeRegister [⟨1, 100, 100, [10]⟩] 100 100 (stopCamera c8State))
      = routeRegister [⟨1, 100, 100, [10]⟩] 100 100 (stopCamera c8State) := by
    unfold routeVerify
    rw [hroute]
    rw [if_neg (by intro hc; exact FaceAction.noConfusion (Option.some.inj hc))]
  unfold handleDetectionResult
  rw [hv, hroute]

/-! ## Worker supervisor initialization (C9)

Embeds `initializeWorker` and `initWebWorker` of the refactored worker module
(src/refactored/main.js, worker.js section, lines 294-333; the EnhancedApp
`initFaceApi`, faceapi_warmup.js lines 1603-1633, follows the same
try-primary-then-fallback shape). -/

/-- The environment facts the initialization code branches on: Service Worker
support, `OffscreenCanvas` support, whether `initServiceWorker` resolves
(registration and activation succeed) or throws, and `window.Worker`
support. -/
structure WorkerEnv where
  serviceWorkerSupported : Bool
  offscreenCanvasSupported : Bool
  serviceWorkerInitSucceeds : Bool
  webWorkerSupported : Bool
deriving DecidableEq

/-- One initialization attempt, in the order the code makes them. -/
inductive WorkerAttempt where
  | serviceWorker
  | webWorker
deriving DecidableEq

/-- How initialization ends. -/
inductive InitOutcome where
  | serviceWorkerActive
  | webWorkerActive
  | fatalError
deriving DecidableEq

/-- `initWebWorker` (worker.js lines 294-313): without `window.Worker` a
fatal "not supported" error is surfaced and the function returns — no retry;
otherwise the fallback Web Worker becomes the active worker. -/
def initWebWorker (env : WorkerEnv) : InitOutcome :=
  if env.webWorkerSupported then .webWorkerActive else .fatalError

/-- `initializeWorker` (worker.js lines 318-333): with Service Worker and
OffscreenCanvas support the primary path is tried; if it throws, the one
fallback `initWebWorker` call is made; without support, `initWebWorker` runs
directly.  The second component records the ordered initialization
attempts. -/
def initializeWorker (env : WorkerEnv) : InitOutcome × List WorkerAttempt :=
  if env.serviceWorkerSupported && env.offscreenCanvasSupported then
    if env.serviceWorkerInitSucceeds then
      (.serviceWorkerActive, [.serviceWorker])
    else
      (initWebWorker env, [.serviceWorker, .webWorker])
  else
    (initWebWorker env, [.webWorker])

/-- C9: whenever the primary (Service Worker) initialization path is taken
and fails, exactly one fallback (Web Worker) attempt follows it — the attempt
trace is exactly primary-then-fallback, with a single fallback entry — before
any error is surfaced; if the fallback also fails (no Web Worker support) the
outcome is a fatal initialization error with no further attempts, and if the
fallback succeeds the Web Worker becomes active. -/
theorem worker_fallback_exactly_once (env : WorkerEnv)
    (hsw : (env.serviceWorkerSupported && env.offscreenCanvasSupported) = true)
    (hfail : env.serviceWorkerInitSucceeds = false) :
    (initializeWorker env).2 = [.serviceWorker, .webWorker]
    ∧ (initializeWorker env).2.count WorkerAttempt.webWorker = 1
    ∧ (env.webWorkerSupported = false → (initializeWorker env).1 = .fatalError)
    ∧ (env.webWorkerSupported = true → (initializeWorker env).1 = .webWorkerActive) := by
  unfold initializeWorker initWebWorker
  rw [if_pos hsw, if_neg (by rw [hfail]; exact Bool.false_ne_true)]
  refine ⟨rfl, rfl, ?_, ?_⟩
  · intro h
    rw [if_neg (by rw [h]; exact Bool.false_ne_true)]
  · intro h
    rw [if_pos h]

/-- Witness for C9: an environment supporting both Service Worker and
OffscreenCanvas whose primary initialization throws and whose Web Worker
construction is unavailable: one fallback attempt, then a fatal error. -/
theorem worker_fallback_exactly_once_witness :
    ((WorkerEnv.mk true true false false).serviceWorkerSupported
        && (WorkerEnv.mk true true false false).offscreenCanvasSupported) = true
    ∧ (WorkerEnv.mk true true false false).serviceWorkerInitSucceeds = false
    ∧ ((initializeWorker (WorkerEnv.mk true true false false)).2
          = [.serviceWorker, .webWorker]
       ∧ (initializeWorker (WorkerEnv.mk true true false false)).2.count
          WorkerAttempt.webWorker = 1
       ∧ ((WorkerEnv.mk true true false false).webWorkerSupported = false →
            (initializeWorker (WorkerEnv.mk true true false false)).1 = .fatalError)
       ∧ ((WorkerEnv.mk true true false false).webWorkerSupported = true →
            (initializeWorker (WorkerEnv.mk true true false false)).1
              = .webWorkerActive)) :=
  ⟨rfl, rfl, worker_fallback_exactly_once (WorkerEnv.mk true true false false) rfl rfl⟩

end FaceApp
